import Mathlib

/-!
Shallow embedding of the license-management core (app.py, models.py,
firebase_service.py).

Modelling conventions:
- Time is a natural number of seconds (datetime.utcnow() becomes an explicit
  `now` argument; timedelta(hours=24) is 24*3600 seconds, timedelta(days=n)
  is n*86400 seconds).
- The SQLAlchemy session and database are collapsed into one `Store` value
  passed in and returned by each handler; `obj.field = v` followed by
  `db.session.commit()` becomes a functional update keyed by the primary key
  of the mutated row (SQLAlchemy identity map semantics).  For claim C7 a
  second pair of definitions (activateF, validateF) keeps the committed
  database and the session view separate and injects a fault at a chosen
  commit site, mirroring an unexpected exception raised by the commit.
- JWTs are records carrying the payload fields the source encodes
  (user_id, license_id, exp) plus the signing key standing in for the
  HS256 signature; decoding checks the key and the exp claim exactly as
  PyJWT does (a token is rejected once exp <= now).
- The JSON request parsing step of /activate (the missing-fields 400) is
  outside the embedding: handlers receive the already-extracted fields,
  with device_info defaulted to "" by the caller as in the source.
- Logging is a no-op; the firebase send itself is an oracle argument, since
  the network call is outside the program.
-/

/-- Declared properties of a database column, as written in models.py. -/
structure ColumnSpec where
  unique : Bool
  nullable : Bool
  indexed : Bool
deriving DecidableEq

/-- models.py License row. -/
structure License where
  id : Nat
  key : String
  status : String
  expires_at : Option Nat
  created_at : Nat
  revoked_at : Option Nat
  created_by : Option Nat
  revoked_by : Option Nat
deriving DecidableEq

/-- models.py Device row. -/
structure Device where
  id : Nat
  device_id : String
  device_info : String
  fcm_token : Option String
  registered_at : Nat
  last_validated : Option Nat
  is_active : Bool
  license_id : Nat
deriving DecidableEq

/-- models.py AuditLog row. -/
structure AuditLog where
  id : Nat
  action : String
  details : String
  license_id : Option Nat
  device_id : Option String
  admin_user_id : Option Nat
  created_at : Nat
deriving DecidableEq

/-- models.py: `device_id = db.Column(db.String(255), nullable=False, index=True)`
— indexed but carrying no unique constraint. -/
def Device.device_id_column : ColumnSpec :=
  { unique := false, nullable := false, indexed := true }

/-- models.py: `key = db.Column(db.String(255), unique=True, nullable=False, index=True)`. -/
def License.key_column : ColumnSpec :=
  { unique := true, nullable := false, indexed := true }

/-- models.py: `username = db.Column(db.String(80), unique=True, nullable=False)`. -/
def AdminUser.username_column : ColumnSpec :=
  { unique := true, nullable := false, indexed := false }

/-- The three tables the core handlers touch. -/
structure Store where
  licenses : List License
  devices : List Device
  audit_logs : List AuditLog
deriving DecidableEq

/-- app.py: `app.config[JWT_ACCESS_TOKEN_EXPIRES] = timedelta(hours=24)`, in seconds. -/
def JWT_ACCESS_TOKEN_EXPIRES : Nat := 24 * 3600

/-- A signed JWT as the source builds it: payload user_id / license_id / exp,
with sig_key standing in for the HS256 signature under the signing key. -/
structure Token where
  user_id : String
  license_id : Nat
  exp : Nat
  sig_key : String
deriving DecidableEq

/-- jwt.encode of the payload dict used at both call sites in app.py. -/
def jwtEncode (user_id : String) (license_id : Nat) (exp : Nat) (key : String) : Token :=
  { user_id := user_id, license_id := license_id, exp := exp, sig_key := key }

/-- Outcome of jwt.decode: the payload, or ExpiredSignatureError, or InvalidTokenError. -/
inductive DecodeResult where
  | ok (user_id : String) (license_id : Nat)
  | expired
  | invalid
deriving DecidableEq

/-- jwt.decode with the configured key: a wrong signature is InvalidTokenError;
the exp claim rejects the token once exp <= now (RFC 7519 / PyJWT semantics). -/
def jwtDecode (tok : Token) (key : String) (now : Nat) : DecodeResult :=
  if tok.sig_key ≠ key then .invalid
  else if tok.exp ≤ now then .expired
  else .ok tok.user_id tok.license_id

/-- Python truthiness test `expires_at and expires_at < utcnow()`. -/
def optLt : Option Nat → Nat → Bool
  | some t, now => t < now
  | none, _ => false

/-- Python `(later - earlier).days`: timedelta stores floored whole days. -/
def timedeltaDays (later earlier : Nat) : Int :=
  Int.fdiv ((later : Int) - (earlier : Int)) 86400

/-- Mutating a queried License object and committing: the row with that
primary key takes the new field values. -/
def updateLicense (s : Store) (lid : Nat) (f : License → License) : Store :=
  { s with licenses := s.licenses.map (fun l => if l.id = lid then f l else l) }

/-- Mutating a queried Device object and committing. -/
def updateDevice (s : Store) (did : Nat) (f : Device → Device) : Store :=
  { s with devices := s.devices.map (fun d => if d.id = did then f d else d) }

/-- Responses of POST /activate, one constructor per distinct jsonify return. -/
inductive ActivateResp where
  | invalidKey
  | notActive
  | expired
  | boundElsewhere
  | success (token : Token) (license_status : String) (expires_at : Option Nat)
  | internalError
deriving DecidableEq

/-- HTTP status code attached to each /activate response in app.py. -/
def ActivateResp.httpCode : ActivateResp → Nat
  | .invalidKey => 404
  | .notActive => 400
  | .expired => 400
  | .boundElsewhere => 400
  | .success _ _ _ => 200
  | .internalError => 500

/-- Responses of POST /validate.  notActive carries the status field the
source includes; the expired response carries the literal status "expired". -/
inductive ValidateResp where
  | tokenMissing
  | tokenExpired
  | tokenInvalid
  | deviceNotFound
  | licenseNotFound
  | notActive (status : String)
  | expired
  | valid (license_status : String) (expires_at : Option Nat) (days_remaining : Option Int)
  | internalError
deriving DecidableEq

/-- HTTP status code attached to each /validate response in app.py. -/
def ValidateResp.httpCode : ValidateResp → Nat
  | .tokenMissing => 401
  | .tokenExpired => 401
  | .tokenInvalid => 401
  | .deviceNotFound => 404
  | .licenseNotFound => 404
  | .notActive _ => 400
  | .expired => 400
  | .valid _ _ _ => 200
  | .internalError => 500

/-- app.py activate_license (lines 74-150), after JSON field extraction.
nextDeviceRowId / nextAuditId model the autoincrement primary keys the
database assigns on insert. -/
def activate_license (s : Store) (now : Nat) (license_key device_id device_info : String)
    (jwtKey : String) (nextDeviceRowId nextAuditId : Nat) : ActivateResp × Store :=
  match s.licenses.find? (fun l => l.key == license_key) with
  | none => (.invalidKey, s)
  | some license_obj =>
    if license_obj.status ≠ "active" then (.notActive, s)
    else if optLt license_obj.expires_at now then
      (.expired, updateLicense s license_obj.id (fun l => { l with status := "expired" }))
    else
      match s.devices.find? (fun d => d.device_id == device_id) with
      | some existing_device =>
        if existing_device.license_id = license_obj.id then
          (.success (jwtEncode device_id license_obj.id (now + JWT_ACCESS_TOKEN_EXPIRES) jwtKey)
            license_obj.status license_obj.expires_at, s)
        else
          (.boundElsewhere, s)
      | none =>
        let device : Device :=
          { id := nextDeviceRowId, device_id := device_id, device_info := device_info,
            fcm_token := none, registered_at := now, last_validated := none,
            is_active := true, license_id := license_obj.id }
        let audit : AuditLog :=
          { id := nextAuditId, action := "license_activated",
            details := "Device " ++ device_id ++ " activated license " ++ license_key,
            license_id := some license_obj.id, device_id := some device_id,
            admin_user_id := none, created_at := now }
        (.success (jwtEncode device_id license_obj.id (now + JWT_ACCESS_TOKEN_EXPIRES) jwtKey)
          license_obj.status license_obj.expires_at,
         { s with devices := s.devices ++ [device], audit_logs := s.audit_logs ++ [audit] })

/-- app.py validate_license body (lines 155-188), receiving the user_id the
jwt_required decorator extracted from the token. -/
def validate_license (s : Store) (now : Nat) (user_id : String) : ValidateResp × Store :=
  match s.devices.find? (fun d => d.device_id == user_id) with
  | none => (.deviceNotFound, s)
  | some device =>
    match s.licenses.find? (fun l => l.id == device.license_id) with
    | none => (.licenseNotFound, s)
    | some license_obj =>
      if license_obj.status ≠ "active" then (.notActive license_obj.status, s)
      else if optLt license_obj.expires_at now then
        (.expired, updateLicense s license_obj.id (fun l => { l with status := "expired" }))
      else
        (.valid license_obj.status license_obj.expires_at
          (license_obj.expires_at.map (fun e => timedeltaDays e now)),
         updateDevice s device.id (fun d => { d with last_validated := some now }))

/-- app.py jwt_required decorator (lines 48-64): missing header is 401,
then jwt.decode with the two distinct error branches. -/
def jwt_required (f : Store → Nat → String → ValidateResp × Store)
    (s : Store) (now : Nat) (auth : Option Token) (jwtKey : String) : ValidateResp × Store :=
  match auth with
  | none => (.tokenMissing, s)
  | some tok =>
    match jwtDecode tok jwtKey now with
    | .expired => (.tokenExpired, s)
    | .invalid => (.tokenInvalid, s)
    | .ok user_id _ => f s now user_id

/-- The composed POST /validate route: jwt_required wrapping validate_license. -/
def validate_route (s : Store) (now : Nat) (auth : Option Token) (jwtKey : String) :
    ValidateResp × Store :=
  jwt_required validate_license s now auth jwtKey

/-- app.py create_license (lines 234-260): admin form handler; an empty key or
a duplicate key leaves the store unchanged, otherwise a fresh active license
with expiry now + duration_days is inserted. -/
def create_license (s : Store) (now : Nat) (key : String) (duration_days : Nat)
    (creatorId nextId : Nat) : Store :=
  if key = "" then s
  else
    match s.licenses.find? (fun l => l.key == key) with
    | some _ => s
    | none =>
      { s with licenses := s.licenses ++
          [{ id := nextId, key := key, status := "active",
             expires_at := some (now + duration_days * 86400), created_at := now,
             revoked_at := none, created_by := some creatorId, revoked_by := none }] }

/-- Outcome of the firebase messaging.send call, an oracle for the network. -/
inductive SendOutcome where
  | delivered (message_id : String)
  | unregisteredToken
  | sendError (detail : String)
deriving DecidableEq

/-- firebase_service.py send_notification_to_device (lines 51-90):
returns False when the SDK is uninitialized, on UnregisteredError and on any
other exception; True only when messaging.send succeeds.  Totality of this
function embeds the fact that no exception escapes to the caller. -/
def send_notification_to_device (appInitialized : Bool) (fcm_token title body : String)
    (data : List (String × String)) (outcome : SendOutcome) : Bool :=
  if !appInitialized then false
  else
    match outcome with
    | .delivered _ => true
    | .unregisteredToken => false
    | .sendError _ => false

/-!
Fault-injected variants for the error-boundary claim.  Each handler body can
raise an unexpected exception at a commit site (commit sites are numbered in
source order: site 1 is the lazy-expiry commit, site 2 the second commit of
the handler).  A failing commit leaves the database untouched while the
session keeps the pending attribute changes.  The result carries the
response, the committed database, and the session view after the except
clause ran: activate runs db.session.rollback() there (restoring the session
to the committed state), validate does not.
-/

/-- activate_license with a fault oracle: failAt names the commit site whose
db.session.commit() raises.  Returns (response, committed db, session view). -/
def activateF (s : Store) (now : Nat) (license_key device_id device_info : String)
    (jwtKey : String) (nextDeviceRowId nextAuditId : Nat) (failAt : Option Nat) :
    ActivateResp × Store × Store :=
  match s.licenses.find? (fun l => l.key == license_key) with
  | none => (.invalidKey, s, s)
  | some license_obj =>
    if license_obj.status ≠ "active" then (.notActive, s, s)
    else if optLt license_obj.expires_at now then
      let sess := updateLicense s license_obj.id (fun l => { l with status := "expired" })
      if failAt = some 1 then (.internalError, s, s)
      else (.expired, sess, sess)
    else
      match s.devices.find? (fun d => d.device_id == device_id) with
      | some existing_device =>
        if existing_device.license_id = license_obj.id then
          (.success (jwtEncode device_id license_obj.id (now + JWT_ACCESS_TOKEN_EXPIRES) jwtKey)
            license_obj.status license_obj.expires_at, s, s)
        else
          (.boundElsewhere, s, s)
      | none =>
        let device : Device :=
          { id := nextDeviceRowId, device_id := device_id, device_info := device_info,
            fcm_token := none, registered_at := now, last_validated := none,
            is_active := true, license_id := license_obj.id }
        let audit : AuditLog :=
          { id := nextAuditId, action := "license_activated",
            details := "Device " ++ device_id ++ " activated license " ++ license_key,
            license_id := some license_obj.id, device_id := some device_id,
            admin_user_id := none, created_at := now }
        let sess := { s with devices := s.devices ++ [device],
                             audit_logs := s.audit_logs ++ [audit] }
        if failAt = some 2 then (.internalError, s, s)
        else (.success (jwtEncode device_id license_obj.id (now + JWT_ACCESS_TOKEN_EXPIRES) jwtKey)
          license_obj.status license_obj.expires_at, sess, sess)

/-- validate_license body with the same fault oracle.  The except clause of
validate_license returns the 500 response without db.session.rollback(), so
on a fault the session view retains the pending mutation. -/
def validateF (s : Store) (now : Nat) (user_id : String) (failAt : Option Nat) :
    ValidateResp × Store × Store :=
  match s.devices.find? (fun d => d.device_id == user_id) with
  | none => (.deviceNotFound, s, s)
  | some device =>
    match s.licenses.find? (fun l => l.id == device.license_id) with
    | none => (.licenseNotFound, s, s)
    | some license_obj =>
      if license_obj.status ≠ "active" then (.notActive license_obj.status, s, s)
      else if optLt license_obj.expires_at now then
        let sess := updateLicense s license_obj.id (fun l => { l with status := "expired" })
        if failAt = some 1 then (.internalError, s, sess)
        else (.expired, sess, sess)
      else
        let sess := updateDevice s device.id (fun d => { d with last_validated := some now })
        if failAt = some 2 then (.internalError, s, sess)
        else
          (.valid license_obj.status license_obj.expires_at
            (license_obj.expires_at.map (fun e => timedeltaDays e now)), sess, sess)

/-- At most one Device row per device_id string, process-wide. -/
def devIdsUnique (s : Store) : Prop :=
  s.devices.Pairwise (fun a b => a.device_id ≠ b.device_id)

/-- States reachable from the empty store through the implemented handlers. -/
inductive Reachable : Store → Prop where
  | init : Reachable { licenses := [], devices := [], audit_logs := [] }
  | create {s} (now : Nat) (key : String) (dur cid nid : Nat) :
      Reachable s → Reachable (create_license s now key dur cid nid)
  | act {s} (now : Nat) (key dev info jk : String) (nid aid : Nat) :
      Reachable s → Reachable (activate_license s now key dev info jk nid aid).2
  | val {s} (now : Nat) (auth : Option Token) (jk : String) :
      Reachable s → Reachable (validate_route s now auth jk).2

/-! Helper lemmas about the embedded operations. -/

theorem find?_map_pres {α : Type} (f : α → α) (p : α → Bool) (l : List α)
    (hp : ∀ x, p (f x) = p x) : (l.map f).find? p = (l.find? p).map f := by
  rw [List.find?_map]
  have h : (p ∘ f) = p := funext hp
  rw [h]

theorem find?_key_updateLicense (s : Store) (L : License) (key : String) (lid : Nat)
    (g : License → License) (hkey : ∀ l, (g l).key = l.key)
    (hfind : s.licenses.find? (fun l => l.key == key) = some L) :
    (updateLicense s lid g).licenses.find? (fun l => l.key == key)
      = some (if L.id = lid then g L else L) := by
  unfold updateLicense
  show (s.licenses.map _).find? _ = _
  rw [find?_map_pres _ _ _ (by intro x; by_cases h : x.id = lid <;> simp [h, hkey]), hfind]
  rfl

theorem find?_id_updateLicense (s : Store) (L : License) (tgt lid : Nat)
    (g : License → License) (hid : ∀ l, (g l).id = l.id)
    (hfind : s.licenses.find? (fun l => l.id == tgt) = some L) :
    (updateLicense s lid g).licenses.find? (fun l => l.id == tgt)
      = some (if L.id = lid then g L else L) := by
  unfold updateLicense
  show (s.licenses.map _).find? _ = _
  rw [find?_map_pres _ _ _ (by intro x; by_cases h : x.id = lid <;> simp [h, hid]), hfind]
  rfl

theorem activate_not_active (s : Store) (now : Nat) (key dev info jk : String)
    (nid aid : Nat) (L : License)
    (hfind : s.licenses.find? (fun l => l.key == key) = some L)
    (hna : L.status ≠ "active") :
    activate_license s now key dev info jk nid aid = (.notActive, s) := by
  unfold activate_license
  rw [hfind]
  simp [hna]

theorem activate_lazy_expire (s : Store) (now : Nat) (key dev info jk : String)
    (nid aid : Nat) (L : License) (t : Nat)
    (hfind : s.licenses.find? (fun l => l.key == key) = some L)
    (hact : L.status = "active") (hexp : L.expires_at = some t) (ht : t < now) :
    activate_license s now key dev info jk nid aid =
      (.expired, updateLicense s L.id (fun l => { l with status := "expired" })) := by
  unfold activate_license
  rw [hfind]
  simp [hact, optLt, hexp, ht]

theorem validate_route_ok (s : Store) (now : Nat) (jk uid : String) (tok : Token) (lid : Nat)
    (htok : jwtDecode tok jk now = .ok uid lid) :
    validate_route s now (some tok) jk = validate_license s now uid := by
  have h : validate_route s now (some tok) jk
      = match jwtDecode tok jk now with
        | .expired => (.tokenExpired, s)
        | .invalid => (.tokenInvalid, s)
        | .ok user_id _ => validate_license s now user_id := rfl
  rw [h, htok]

theorem validate_license_not_active (s : Store) (now : Nat) (uid : String)
    (D : Device) (L : License)
    (hdev : s.devices.find? (fun d => d.device_id == uid) = some D)
    (hlic : s.licenses.find? (fun l => l.id == D.license_id) = some L)
    (hna : L.status ≠ "active") :
    validate_license s now uid = (.notActive L.status, s) := by
  unfold validate_license
  rw [hdev]
  simp only [hlic]
  simp [hna]

theorem validate_license_lazy_expire (s : Store) (now : Nat) (uid : String)
    (D : Device) (L : License) (t : Nat)
    (hdev : s.devices.find? (fun d => d.device_id == uid) = some D)
    (hlic : s.licenses.find? (fun l => l.id == D.license_id) = some L)
    (hact : L.status = "active") (hexp : L.expires_at = some t) (ht : t < now) :
    validate_license s now uid =
      (.expired, updateLicense s L.id (fun l => { l with status := "expired" })) := by
  unfold validate_license
  rw [hdev]
  simp only [hlic]
  simp [hact, optLt, hexp, ht]

theorem validate_license_success (s : Store) (now : Nat) (uid : String)
    (D : Device) (L : License)
    (hdev : s.devices.find? (fun d => d.device_id == uid) = some D)
    (hlic : s.licenses.find? (fun l => l.id == D.license_id) = some L)
    (hact : L.status = "active") (hexp : optLt L.expires_at now = false) :
    validate_license s now uid =
      (.valid L.status L.expires_at (L.expires_at.map (fun e => timedeltaDays e now)),
       updateDevice s D.id (fun d => { d with last_validated := some now })) := by
  unfold validate_license
  rw [hdev]
  simp only [hlic]
  simp [hact, hexp]

theorem jwtDecode_fresh (dev : String) (lid : Nat) (now : Nat) (jk : String) :
    jwtDecode (jwtEncode dev lid (now + JWT_ACCESS_TOKEN_EXPIRES) jk) jk now = .ok dev lid := by
  simp [jwtDecode, jwtEncode, JWT_ACCESS_TOKEN_EXPIRES]

/-- C1 (amended): for a license that is still marked active while expires_at lies
in the past, the first activation or validation call persists status "expired"
and fails with the LicenseExpired response; a second such call fails with the
LicenseNotActive response (in validate carrying status field "expired") and
returns the store unchanged, so revoked_at is not touched again and no audit
entry is duplicated. -/
theorem lazy_expire_first_expired_second_not_active
    (s : Store) (now : Nat) (L : License) (t : Nat)
    (hact : L.status = "active") (hexp : L.expires_at = some t) (ht : t < now) :
    (∀ key dev info jk nid aid nid2 aid2,
      s.licenses.find? (fun l => l.key == key) = some L →
      activate_license s now key dev info jk nid aid =
        (.expired, updateLicense s L.id (fun l => { l with status := "expired" }))
      ∧ activate_license (updateLicense s L.id (fun l => { l with status := "expired" }))
          now key dev info jk nid2 aid2 =
        (.notActive, updateLicense s L.id (fun l => { l with status := "expired" })))
    ∧ (∀ tok jk uid lid D,
      jwtDecode tok jk now = .ok uid lid →
      s.devices.find? (fun d => d.device_id == uid) = some D →
      s.licenses.find? (fun l => l.id == D.license_id) = some L →
      validate_route s now (some tok) jk =
        (.expired, updateLicense s L.id (fun l => { l with status := "expired" }))
      ∧ validate_route (updateLicense s L.id (fun l => { l with status := "expired" }))
          now (some tok) jk =
        (.notActive "expired",
         updateLicense s L.id (fun l => { l with status := "expired" }))) := by
  constructor
  · intro key dev info jk nid aid nid2 aid2 hfind
    refine ⟨activate_lazy_expire s now key dev info jk nid aid L t hfind hact hexp ht, ?_⟩
    have hfind2 := find?_key_updateLicense s L key L.id
      (fun l => { l with status := "expired" }) (fun l => rfl) hfind
    rw [if_pos rfl] at hfind2
    exact activate_not_active _ now key dev info jk nid2 aid2 _ hfind2 (by simp)
  · intro tok jk uid lid D htok hdev hlic
    constructor
    · rw [validate_route_ok s now jk uid tok lid htok]
      exact validate_license_lazy_expire s now uid D L t hdev hlic hact hexp ht
    · rw [validate_route_ok _ now jk uid tok lid htok]
      have hdev2 : (updateLicense s L.id
          (fun l => { l with status := "expired" })).devices.find?
          (fun d => d.device_id == uid) = some D := hdev
      have hlic2 := find?_id_updateLicense s L D.license_id L.id
        (fun l => { l with status := "expired" }) (fun l => rfl) hlic
      rw [if_pos rfl] at hlic2
      exact validate_license_not_active _ now uid D _ hdev2 hlic2 (by simp)

def c1License : License :=
  { id := 1, key := "ABC123", status := "active", expires_at := some 100,
    created_at := 0, revoked_at := none, created_by := none, revoked_by := none }

def c1Device : Device :=
  { id := 5, device_id := "dev-1", device_info := "", fcm_token := none,
    registered_at := 50, last_validated := none, is_active := true, license_id := 1 }

def c1Store : Store := { licenses := [c1License], devices := [c1Device], audit_logs := [] }

def c1Tok : Token := { user_id := "dev-1", license_id := 1, exp := 500, sig_key := "k" }

/-- C1 counterexample: with a single active license whose expiry (100) is past
now (200), the first activation and validation calls fail with the expired
response, but the second calls fail with the distinct not-active response, not
with the same LicenseExpired failure the claim states. -/
theorem second_call_failure_differs_from_first :
    (activate_license c1Store 200 "ABC123" "dev-1" "" "k" 7 8).1 = .expired
    ∧ (activate_license (activate_license c1Store 200 "ABC123" "dev-1" "" "k" 7 8).2
        200 "ABC123" "dev-1" "" "k" 9 10).1 = .notActive
    ∧ (activate_license (activate_license c1Store 200 "ABC123" "dev-1" "" "k" 7 8).2
        200 "ABC123" "dev-1" "" "k" 9 10).1 ≠ .expired
    ∧ (validate_route c1Store 200 (some c1Tok) "k").1 = .expired
    ∧ (validate_route (validate_route c1Store 200 (some c1Tok) "k").2
        200 (some c1Tok) "k").1 = .notActive "expired"
    ∧ (validate_route (validate_route c1Store 200 (some c1Tok) "k").2
        200 (some c1Tok) "k").1 ≠ .expired := by
  decide

def c1Expired : Store := updateLicense c1Store 1 (fun l => { l with status := "expired" })

/-- C1 witness: the amended theorem applied to the concrete one-license store. -/
theorem lazy_expire_amended_witness :
    (activate_license c1Store 200 "ABC123" "dev-1" "" "k" 7 8 = (.expired, c1Expired)
     ∧ activate_license c1Expired 200 "ABC123" "dev-1" "" "k" 9 10 = (.notActive, c1Expired))
    ∧ (validate_route c1Store 200 (some c1Tok) "k" = (.expired, c1Expired)
     ∧ validate_route c1Expired 200 (some c1Tok) "k" = (.notActive "expired", c1Expired)) := by
  have h := lazy_expire_first_expired_second_not_active c1Store 200 c1License 100
    rfl rfl (by decide)
  exact ⟨h.1 "ABC123" "dev-1" "" "k" 7 8 9 10 (by decide),
         h.2 c1Tok "k" "dev-1" 1 c1Device (by decide) (by decide) (by decide)⟩

/-- C3 (confirmed): a repeated activation with the same key and device pair,
while the license is active and unexpired and the device is already bound to
that license, succeeds with a freshly minted token (which verifies now to the
same device and license) and leaves the store unchanged: no second Device row
and no second audit entry are created. -/
theorem repeat_activation_idempotent
    (s : Store) (now : Nat) (key dev info jk : String) (nid aid : Nat)
    (L : License) (D : Device)
    (hfind : s.licenses.find? (fun l => l.key == key) = some L)
    (hact : L.status = "active") (hexp : optLt L.expires_at now = false)
    (hdev : s.devices.find? (fun d => d.device_id == dev) = some D)
    (hbound : D.license_id = L.id) :
    activate_license s now key dev info jk nid aid =
      (.success (jwtEncode dev L.id (now + JWT_ACCESS_TOKEN_EXPIRES) jk)
        L.status L.expires_at, s)
    ∧ jwtDecode (jwtEncode dev L.id (now + JWT_ACCESS_TOKEN_EXPIRES) jk) jk now
        = .ok dev L.id := by
  refine ⟨?_, jwtDecode_fresh dev L.id now jk⟩
  unfold activate_license
  rw [hfind]
  simp only [hact, hexp]
  rw [hdev]
  simp [hbound]

def c3License : License :=
  { id := 2, key := "KEY-3", status := "active", expires_at := some 1000,
    created_at := 0, revoked_at := none, created_by := some 1, revoked_by := none }

def c3Device : Device :=
  { id := 6, device_id := "dev-3", device_info := "laptop", fcm_token := none,
    registered_at := 10, last_validated := none, is_active := true, license_id := 2 }

def c3Store : Store := { licenses := [c3License], devices := [c3Device], audit_logs := [] }

/-- C3 witness: the idempotence theorem applied to a concrete bound device. -/
theorem repeat_activation_idempotent_witness :
    activate_license c3Store 200 "KEY-3" "dev-3" "laptop" "k" 7 8 =
      (.success (jwtEncode "dev-3" 2 (200 + JWT_ACCESS_TOKEN_EXPIRES) "k")
        "active" (some 1000), c3Store)
    ∧ jwtDecode (jwtEncode "dev-3" 2 (200 + JWT_ACCESS_TOKEN_EXPIRES) "k") "k" 200
        = .ok "dev-3" 2 :=
  repeat_activation_idempotent c3Store 200 "KEY-3" "dev-3" "laptop" "k" 7 8
    c3License c3Device (by decide) rfl (by decide) (by decide) rfl

/-- C2 (amended): a device already bound to one license, activated with a key
resolving to a different license that is active and unexpired, fails with the
DeviceBoundElsewhere response (HTTP 400) and leaves the whole store unchanged,
so the device stays bound to its first license. -/
theorem rebind_other_license_fails_unchanged
    (s : Store) (now : Nat) (key dev info jk : String) (nid aid : Nat)
    (D : Device) (L2 : License)
    (hdev : s.devices.find? (fun d => d.device_id == dev) = some D)
    (hfind : s.licenses.find? (fun l => l.key == key) = some L2)
    (hact : L2.status = "active") (hexp : optLt L2.expires_at now = false)
    (hne : D.license_id ≠ L2.id) :
    activate_license s now key dev info jk nid aid = (.boundElsewhere, s)
    ∧ ActivateResp.boundElsewhere.httpCode = 400 := by
  refine ⟨?_, rfl⟩
  unfold activate_license
  rw [hfind]
  simp only [hact, hexp]
  rw [hdev]
  simp [hne]

def c2L1 : License :=
  { id := 1, key := "ABC123", status := "active", expires_at := none,
    created_at := 0, revoked_at := none, created_by := none, revoked_by := none }

def c2L2 : License :=
  { id := 2, key := "XYZ999", status := "active", expires_at := some 100,
    created_at := 0, revoked_at := none, created_by := none, revoked_by := none }

def c2Device : Device :=
  { id := 5, device_id := "dev-1", device_info := "", fcm_token := none,
    registered_at := 10, last_validated := none, is_active := true, license_id := 1 }

def c2Store : Store :=
  { licenses := [c2L1, c2L2], devices := [c2Device], audit_logs := [] }

/-- C2 counterexample: dev-1 is bound to license 1 (ABC123); activating with
key XYZ999, which resolves to the different license 2 that is active with
expires_at 100 in the past of now = 200, does not fail DeviceBoundElsewhere
and does not leave the store unchanged: the status checks run first, so the
call fails LicenseExpired and persists status expired on license 2. -/
theorem rebind_claim_fails_on_overdue_license :
    (activate_license c2Store 200 "XYZ999" "dev-1" "" "k" 9 9).1 ≠ .boundElsewhere
    ∧ (activate_license c2Store 200 "XYZ999" "dev-1" "" "k" 9 9).2 ≠ c2Store
    ∧ (activate_license c2Store 200 "XYZ999" "dev-1" "" "k" 9 9).1 = .expired := by
  decide

/-- C2 witness: at now = 50 license 2 is active and unexpired, and the amended
theorem yields DeviceBoundElsewhere with the store unchanged. -/
theorem rebind_other_license_witness :
    activate_license c2Store 50 "XYZ999" "dev-1" "" "k" 9 9 = (.boundElsewhere, c2Store)
    ∧ ActivateResp.boundElsewhere.httpCode = 400 :=
  rebind_other_license_fails_unchanged c2Store 50 "XYZ999" "dev-1" "" "k" 9 9
    c2Device c2L2 (by decide) (by decide) rfl rfl (by decide)

/-- C4 (confirmed): a token issued by a successful activation for device dev
against the license resolved by the key verifies, immediately and under the
same signing key, to exactly that device identifier and license id; once the
24-hour validity window has elapsed the same token fails verification with
TokenExpired. -/
theorem token_round_trip
    (s : Store) (now : Nat) (key dev info jk : String) (nid aid : Nat)
    (L : License) (tok : Token) (st : String) (ex : Option Nat)
    (hfind : s.licenses.find? (fun l => l.key == key) = some L)
    (hsucc : (activate_license s now key dev info jk nid aid).1 = .success tok st ex) :
    jwtDecode tok jk now = .ok dev L.id
    ∧ ∀ later, now + JWT_ACCESS_TOKEN_EXPIRES ≤ later →
        jwtDecode tok jk later = .expired := by
  have htok : tok = jwtEncode dev L.id (now + JWT_ACCESS_TOKEN_EXPIRES) jk := by
    unfold activate_license at hsucc
    rw [hfind] at hsucc
    split at hsucc
    · simp at hsucc
    · rename_i license_obj heq
      injection heq with heqL
      subst heqL
      split at hsucc
      · simp at hsucc
      · split at hsucc
        · simp at hsucc
        · split at hsucc
          · split at hsucc
            · simp only [ActivateResp.success.injEq] at hsucc
              exact hsucc.1.symm
            · simp at hsucc
          · simp only [ActivateResp.success.injEq] at hsucc
            exact hsucc.1.symm
  subst htok
  refine ⟨jwtDecode_fresh dev L.id now jk, ?_⟩
  intro later hl
  simp [jwtDecode, jwtEncode, hl]

def c4License : License :=
  { id := 3, key := "K4", status := "active", expires_at := some 1000000,
    created_at := 0, revoked_at := none, created_by := none, revoked_by := none }

def c4Store : Store := { licenses := [c4License], devices := [], audit_logs := [] }

/-- C4 witness: the round trip at a concrete first activation. -/
theorem token_round_trip_witness :
    jwtDecode (jwtEncode "dev-4" 3 (100 + JWT_ACCESS_TOKEN_EXPIRES) "k") "k" 100
      = .ok "dev-4" 3
    ∧ jwtDecode (jwtEncode "dev-4" 3 (100 + JWT_ACCESS_TOKEN_EXPIRES) "k") "k"
        (100 + JWT_ACCESS_TOKEN_EXPIRES) = .expired := by
  have h := token_round_trip c4Store 100 "K4" "dev-4" "" "k" 11 12 c4License
    (jwtEncode "dev-4" 3 (100 + JWT_ACCESS_TOKEN_EXPIRES) "k") "active" (some 1000000)
    (by decide) (by decide)
  exact ⟨h.1, h.2 _ le_rfl⟩

/-- C6 (confirmed): validating a still-valid token for a device whose bound
license is revoked fails with the LicenseNotActive response, HTTP 400, whose
status field is exactly "revoked", and the store is left unchanged. -/
theorem validate_revoked_fails_not_active
    (s : Store) (now : Nat) (jk uid : String) (tok : Token) (lid : Nat)
    (D : Device) (L : License)
    (htok : jwtDecode tok jk now = .ok uid lid)
    (hdev : s.devices.find? (fun d => d.device_id == uid) = some D)
    (hlic : s.licenses.find? (fun l => l.id == D.license_id) = some L)
    (hrev : L.status = "revoked") :
    validate_route s now (some tok) jk = (.notActive "revoked", s)
    ∧ (ValidateResp.notActive "revoked").httpCode = 400 := by
  refine ⟨?_, rfl⟩
  rw [validate_route_ok s now jk uid tok lid htok]
  have h := validate_license_not_active s now uid D L hdev hlic (by rw [hrev]; decide)
  rw [hrev] at h
  exact h

def c6License : License :=
  { id := 9, key := "RVK", status := "revoked", expires_at := none,
    created_at := 0, revoked_at := some 50, created_by := some 1, revoked_by := some 1 }

def c6Device : Device :=
  { id := 3, device_id := "dev-9", device_info := "", fcm_token := none,
    registered_at := 10, last_validated := none, is_active := true, license_id := 9 }

def c6Store : Store := { licenses := [c6License], devices := [c6Device], audit_logs := [] }

def c6Tok : Token := { user_id := "dev-9", license_id := 9, exp := 400, sig_key := "k" }

/-- C6 witness: a revoked license on a concrete store. -/
theorem validate_revoked_witness :
    validate_route c6Store 100 (some c6Tok) "k" = (.notActive "revoked", c6Store)
    ∧ (ValidateResp.notActive "revoked").httpCode = 400 :=
  validate_revoked_fails_not_active c6Store 100 "k" "dev-9" c6Tok 9 c6Device c6License
    (by decide) (by decide) (by decide) rfl

theorem create_license_devices (s : Store) (now : Nat) (key : String)
    (dur cid nid : Nat) : (create_license s now key dur cid nid).devices = s.devices := by
  unfold create_license
  split
  · rfl
  · split <;> rfl

theorem activate_devices_cases (s : Store) (now : Nat) (key dev info jk : String)
    (nid aid : Nat) :
    (activate_license s now key dev info jk nid aid).2.devices = s.devices
    ∨ (s.devices.find? (fun d => d.device_id == dev) = none
       ∧ ∃ d : Device,
           (activate_license s now key dev info jk nid aid).2.devices = s.devices ++ [d]
           ∧ d.device_id = dev) := by
  unfold activate_license
  split
  · exact Or.inl rfl
  · split
    · exact Or.inl rfl
    · split
      · exact Or.inl rfl
      · split
        · split
          · exact Or.inl rfl
          · exact Or.inl rfl
        · rename_i hnone
          exact Or.inr ⟨hnone, _, rfl, rfl⟩

theorem validate_devices_cases (s : Store) (now : Nat) (auth : Option Token) (jk : String) :
    (validate_route s now auth jk).2.devices = s.devices
    ∨ ∃ did, (validate_route s now auth jk).2.devices
        = s.devices.map
            (fun d => if d.id = did then { d with last_validated := some now } else d) := by
  unfold validate_route jwt_required
  split
  · exact Or.inl rfl
  · split
    · exact Or.inl rfl
    · exact Or.inl rfl
    · unfold validate_license
      split
      · exact Or.inl rfl
      · split
        · exact Or.inl rfl
        · split
          · exact Or.inl rfl
          · split
            · exact Or.inl rfl
            · exact Or.inr ⟨_, rfl⟩

/-- C5 counterexample: models.py declares the devices.device_id column with
index=True but without unique=True, unlike licenses.key and
admin_users.username, so the store schema itself enforces no uniqueness
constraint on the device identifier. -/
theorem device_id_column_not_unique :
    Device.device_id_column.unique = false
    ∧ License.key_column.unique = true
    ∧ AdminUser.username_column.unique = true := by
  decide

/-- C5 (amended): the Device table declares only an index, not a uniqueness
constraint, on device_id; nevertheless, under sequential execution of the
implemented operations (license creation, activation, validation) every
reachable store holds at most one Device row per device_id string, because
activation only inserts a Device after its lookup of that device_id finds
nothing. -/
theorem reachable_device_ids_unique (s : Store) (h : Reachable s) : devIdsUnique s := by
  induction h with
  | init => simp [devIdsUnique]
  | create now key dur cid nid _ ih =>
    unfold devIdsUnique
    rw [create_license_devices]
    exact ih
  | act now key dev info jk nid aid _ ih =>
    rcases activate_devices_cases _ now key dev info jk nid aid with
      h1 | ⟨hnone, d, hdevs, hid⟩
    · unfold devIdsUnique
      rw [h1]
      exact ih
    · unfold devIdsUnique
      rw [hdevs, List.pairwise_append]
      refine ⟨ih, by simp, ?_⟩
      intro a ha b hb
      simp only [List.mem_singleton] at hb
      subst hb
      rw [hid]
      have hne := List.find?_eq_none.mp hnone a ha
      simpa using hne
  | val now auth jk _ ih =>
    rcases validate_devices_cases _ now auth jk with h1 | ⟨did, hmap⟩
    · unfold devIdsUnique
      rw [h1]
      exact ih
    · unfold devIdsUnique
      rw [hmap]
      exact List.Pairwise.map _
        (fun a b hab => by
          by_cases h1 : a.id = did <;> by_cases h2 : b.id = did <;> simp [h1, h2, hab]) ih

/-- C5 witness: the invariant evaluated on a concrete reachable store built by
creating a license and activating it from a device. -/
theorem reachable_device_ids_unique_witness :
    devIdsUnique (activate_license
      (create_license { licenses := [], devices := [], audit_logs := [] } 0 "ABC123" 7 1 1)
      10 "ABC123" "dev-1" "" "k" 1 1).2 :=
  reachable_device_ids_unique _
    (.act 10 "ABC123" "dev-1" "" "k" 1 1 (.create 0 "ABC123" 7 1 1 .init))

def c7License : License :=
  { id := 1, key := "ABC123", status := "active", expires_at := some 100,
    created_at := 0, revoked_at := none, created_by := none, revoked_by := none }

def c7Device : Device :=
  { id := 5, device_id := "dev-1", device_info := "", fcm_token := none,
    registered_at := 50, last_validated := none, is_active := true, license_id := 1 }

def c7Store : Store := { licenses := [c7License], devices := [c7Device], audit_logs := [] }

/-- C7: the error boundary evaluated at the failing input.  When the commit of
the lazy-expiry mutation raises, both handlers catch the exception and return
the generic internal-error response carrying no exception detail, but only
activate_license runs db.session.rollback(): after the fault the activate
session equals the committed database again, while the validate session still
differs from the committed database, since the pending status mutation was
never rolled back — the except clause of validate_license has no rollback. -/
theorem validate_missing_rollback_on_fault :
    (validateF c7Store 200 "dev-1" (some 1)).1 = .internalError
    ∧ (validateF c7Store 200 "dev-1" (some 1)).2.1 = c7Store
    ∧ (validateF c7Store 200 "dev-1" (some 1)).2.2 ≠ c7Store
    ∧ (activateF c7Store 200 "ABC123" "dev-1" "" "k" 7 8 (some 1)).1 = .internalError
    ∧ (activateF c7Store 200 "ABC123" "dev-1" "" "k" 7 8 (some 1)).2.2
        = (activateF c7Store 200 "ABC123" "dev-1" "" "k" 7 8 (some 1)).2.1 := by
  decide

theorem timedeltaDays_nonneg_eq (e now : Nat) (h : now ≤ e) :
    timedeltaDays e now = (((e - now) / 86400 : Nat) : Int) := by
  unfold timedeltaDays
  rw [← Int.ofNat_sub h, Int.ofNat_fdiv]
  norm_cast

/-- C8 (confirmed): every successful validate response is valid=true carrying
the license status "active", its expiry, and a days_remaining field that is
null exactly when the license has no expires_at, and otherwise equals the
whole number of days between now and expiry, floored: it is the natural
number d with d*86400 <= expiry - now < (d+1)*86400. -/
theorem validate_days_remaining
    (s : Store) (now : Nat) (jk uid : String) (tok : Token) (lid : Nat)
    (D : Device) (L : License)
    (htok : jwtDecode tok jk now = .ok uid lid)
    (hdev : s.devices.find? (fun d => d.device_id == uid) = some D)
    (hlic : s.licenses.find? (fun l => l.id == D.license_id) = some L)
    (hact : L.status = "active") (hexp : optLt L.expires_at now = false) :
    (validate_route s now (some tok) jk).1
      = .valid "active" L.expires_at (L.expires_at.map (fun e => timedeltaDays e now))
    ∧ ((L.expires_at.map (fun e => timedeltaDays e now)) = none ↔ L.expires_at = none)
    ∧ (∀ e, L.expires_at = some e →
        now ≤ e ∧
        ∃ d : Nat, timedeltaDays e now = (d : Int)
          ∧ d * 86400 ≤ e - now ∧ e - now < (d + 1) * 86400) := by
  refine ⟨?_, ?_, ?_⟩
  · rw [validate_route_ok s now jk uid tok lid htok,
        validate_license_success s now uid D L hdev hlic hact hexp]
    simp [hact]
  · cases hE : L.expires_at <;> simp
  · intro e he
    have hle : now ≤ e := by
      rw [he] at hexp
      simp [optLt] at hexp
      omega
    refine ⟨hle, (e - now) / 86400, timedeltaDays_nonneg_eq e now hle, ?_, ?_⟩
    · omega
    · omega

def c8License : License :=
  { id := 4, key := "K8", status := "active", expires_at := some 604900,
    created_at := 0, revoked_at := none, created_by := none, revoked_by := none }

def c8Device : Device :=
  { id := 7, device_id := "dev-8", device_info := "", fcm_token := none,
    registered_at := 10, last_validated := none, is_active := true, license_id := 4 }

def c8Store : Store := { licenses := [c8License], devices := [c8Device], audit_logs := [] }

def c8Tok : Token := { user_id := "dev-8", license_id := 4, exp := 900, sig_key := "k" }

/-- C8 witness: expiry 604900 at now 100 gives exactly 7 whole days. -/
theorem validate_days_remaining_witness :
    (validate_route c8Store 100 (some c8Tok) "k").1
      = .valid "active" (some 604900) (some (timedeltaDays 604900 100))
    ∧ timedeltaDays 604900 100 = (7 : Int) := by
  have h := validate_days_remaining c8Store 100 "k" "dev-8" c8Tok 4 c8Device c8License
    (by decide) (by decide) (by decide) rfl (by decide)
  exact ⟨h.1, by decide⟩

/-- C9 (confirmed): the single-device push operation is a total boolean-valued
function of its inputs and of the send outcome (so no exception reaches its
caller), returning True exactly when the SDK is initialized and the send is
delivered, and False when Firebase is uninitialized, when the token is
unregistered, and on any other send error. -/
theorem send_to_device_total_boolean
    (appInit : Bool) (fcm title body : String) (data : List (String × String))
    (outcome : SendOutcome) :
    (send_notification_to_device appInit fcm title body data outcome = true
      ↔ (appInit = true ∧ ∃ mid, outcome = .delivered mid))
    ∧ send_notification_to_device false fcm title body data outcome = false
    ∧ send_notification_to_device appInit fcm title body data .unregisteredToken = false
    ∧ ∀ detail,
        send_notification_to_device appInit fcm title body data (.sendError detail)
          = false := by
  unfold send_notification_to_device
  cases appInit <;> cases outcome <;> simp

/-- C10 (confirmed): a successful validation mutates only the bound device row,
and there only last_validated (set to now): the licenses and audit_logs tables
are returned unchanged, no device row is created or removed, and every other
field of every device row is preserved by the update function shown. -/
theorem validate_success_frame
    (s : Store) (now : Nat) (jk uid : String) (tok : Token) (lid : Nat)
    (D : Device) (L : License)
    (htok : jwtDecode tok jk now = .ok uid lid)
    (hdev : s.devices.find? (fun d => d.device_id == uid) = some D)
    (hlic : s.licenses.find? (fun l => l.id == D.license_id) = some L)
    (hact : L.status = "active") (hexp : optLt L.expires_at now = false) :
    validate_route s now (some tok) jk =
      (.valid L.status L.expires_at (L.expires_at.map (fun e => timedeltaDays e now)),
       { s with devices := s.devices.map (fun d => if d.id = D.id then { d with last_validated := some now } else d) })
    ∧ (validate_route s now (some tok) jk).2.licenses = s.licenses
    ∧ (validate_route s now (some tok) jk).2.audit_logs = s.audit_logs
    ∧ (validate_route s now (some tok) jk).2.devices.length = s.devices.length := by
  have hmain : validate_route s now (some tok) jk =
      (.valid L.status L.expires_at (L.expires_at.map (fun e => timedeltaDays e now)),
       { s with devices := s.devices.map (fun d => if d.id = D.id then { d with last_validated := some now } else d) }) := by
    rw [validate_route_ok s now jk uid tok lid htok]
    exact validate_license_success s now uid D L hdev hlic hact hexp
  refine ⟨hmain, ?_, ?_, ?_⟩
  · rw [hmain]
  · rw [hmain]
  · rw [hmain]
    simp

def c10License : License :=
  { id := 4, key := "KX", status := "active", expires_at := some 604900,
    created_at := 0, revoked_at := none, created_by := none, revoked_by := none }

def c10Device : Device :=
  { id := 7, device_id := "dev-10", device_info := "tablet", fcm_token := none,
    registered_at := 10, last_validated := some 40, is_active := true, license_id := 4 }

def c10Store : Store := { licenses := [c10License], devices := [c10Device], audit_logs := [] }

def c10Tok : Token := { user_id := "dev-10", license_id := 4, exp := 900, sig_key := "k" }

/-- C10 witness: the frame property at a concrete successful validation. -/
theorem validate_success_frame_witness :
    validate_route c10Store 100 (some c10Tok) "k" =
      (.valid "active" (some 604900) (some (timedeltaDays 604900 100)),
       { c10Store with devices := c10Store.devices.map (fun d => if d.id = 7 then { d with last_validated := some 100 } else d) }) := by
  have h := validate_success_frame c10Store 100 "k" "dev-10" c10Tok 4 c10Device c10License
    (by decide) (by decide) (by decide) rfl (by decide)
  exact h.1
